import Mathlib

/-!
Shallow embedding of `src/crypto_tracker.py`, a Streamlit dashboard that
polls the CoinGecko API, caches responses with `st.cache_data` TTLs, and
renders quote tables and history charts.

Modelling conventions:
* Machine floats become `ℚ`; timestamps are `Nat` seconds.
* An HTTP interaction is an `HttpOutcome`: either a response carrying a
  status code and a parsed JSON body, or a transport-level failure
  (`requests.get` raising `ConnectionError`/`Timeout`/...).
* A Python function that may let an exception escape is embedded as
  `Except String _`; `.error` models an uncaught exception propagating to
  the caller, `.ok` a normal return.
* `st.error`/`st.warning` banners are recorded as data in the result.
-/

/-- Outcome of one `requests.get` call: a response with a status code and a
decoded JSON body, or a transport failure that raises in `requests.get`. -/
inductive HttpOutcome (β : Type) where
  | response (status : Nat) (body : β)
  | transportFailure (msg : String)
deriving Repr

/-- `true` iff the outcome is an HTTP response (no exception raised). -/
def HttpOutcome.isResponse {β : Type} : HttpOutcome β → Bool
  | .response _ _ => true
  | .transportFailure _ => false

/-- One market snapshot as consumed from the `/coins/markets` payload
(`crypto_tracker.py` uses exactly these fields of each element). -/
structure Quote where
  id : String
  name : String
  symbol : String
  current_price : ℚ
  price_change_percentage_24h : ℚ
  price_change_percentage_7d_in_currency : ℚ
  price_change_percentage_30d_in_currency : ℚ
  market_cap : ℚ
  total_volume : ℚ
  image : String
deriving Repr, DecidableEq

/-- Normal return value of an embedded fetch function: the returned value
plus the `st.error` banner it displayed, if any. -/
structure FetchResult (α : Type) where
  value : α
  errorShown : Option String
deriving Repr, DecidableEq

/-- `get_crypto_data` (lines 21–39) minus the `@st.cache_data` decorator:
`requests.get` may raise (transport failure, uncaught → `.error`);
status 200 returns the JSON body; any other status shows
`st.error("Error fetching data: <status>")` and returns `[]`. -/
def get_crypto_data (outcome : HttpOutcome (List Quote)) :
    Except String (FetchResult (List Quote)) :=
  match outcome with
  | .transportFailure msg => .error msg
  | .response status body =>
    if status = 200 then .ok ⟨body, none⟩
    else .ok ⟨[], some ("Error fetching data: " ++ toString status)⟩

/-- The JSON dict returned by the `/market_chart` endpoint, as far as the
script inspects it: whether the key `prices` is present, the decoded
`(timestamp_ms, price)` pairs under it, and how many other keys the dict
has (only dict truthiness, i.e. non-emptiness, is ever tested). -/
structure HistDict where
  hasPrices : Bool
  prices : List (Nat × ℚ)
  otherKeyCount : Nat
deriving Repr, DecidableEq

/-- Python truthiness of the history dict: a dict is truthy iff non-empty. -/
def dictTruthy (h : HistDict) : Bool :=
  h.hasPrices || decide (0 < h.otherKeyCount)

/-- The sentinel value returned on a failed history fetch, `{'prices': []}`:
the key `prices` is present, mapped to the empty list, no other keys. -/
def histFailureSentinel : HistDict := ⟨true, [], 0⟩

/-- The query parameters `get_historical_data` sends (line 45–49). -/
structure HistRequest where
  vs_currency : String
  days : Int
  interval : String
deriving Repr, DecidableEq

/-- Request built by `get_historical_data`:
`'interval': 'daily' if days > 1 else 'hourly'`. -/
def historyRequest (days : Int) : HistRequest :=
  ⟨"usd", days, if days > 1 then "daily" else "hourly"⟩

/-- `get_historical_data` (lines 42–56) minus the `@st.cache_data` decorator:
`requests.get` may raise (uncaught → `.error`); status 200 returns the JSON
dict; any other status shows `st.error(...)` and returns `{'prices': []}`. -/
def get_historical_data (outcome : HttpOutcome HistDict) :
    Except String (FetchResult HistDict) :=
  match outcome with
  | .transportFailure msg => .error msg
  | .response status body =>
    if status = 200 then .ok ⟨body, none⟩
    else .ok ⟨histFailureSentinel,
              some ("Error fetching historical data: " ++ toString status)⟩

/-! ## The `st.cache_data` TTL cache -/

/-- `quotes` cache TTL: `@st.cache_data(ttl=300)` on `get_crypto_data`. -/
def quotes_ttl : Nat := 300

/-- history cache TTL: `@st.cache_data(ttl=3600)` on `get_historical_data`. -/
def historical_ttl : Nat := 3600

/-- One `st.cache_data` entry: a stored return value and its creation time;
the entry is valid at time `now` iff `now < created_at + ttl`. -/
structure CacheEntry (V : Type) where
  value : V
  created_at : Nat
deriving Repr, DecidableEq

/-- Result of one call through a simple (infallible) `st.cache_data`
wrapper: the value returned, the cache slot afterwards, and whether the
underlying function was actually invoked. -/
structure CacheResult (V : Type) where
  value : V
  entry : Option (CacheEntry V)
  fetched : Bool
deriving Repr, DecidableEq

/-- `st.cache_data(ttl := t)` semantics for a function that cannot raise:
a valid entry is returned without invoking `fetchFn`; otherwise `fetchFn`
runs and its return value — whatever it is — is stored with a fresh
timestamp. -/
def cachedCall {V : Type} (ttl : Nat) (fetchFn : Nat → V)
    (e : Option (CacheEntry V)) (now : Nat) : CacheResult V :=
  match e with
  | some en =>
    if now < en.created_at + ttl then ⟨en.value, some en, false⟩
    else ⟨fetchFn now, some ⟨fetchFn now, now⟩, true⟩
  | none => ⟨fetchFn now, some ⟨fetchFn now, now⟩, true⟩

instance {ε α : Type} [DecidableEq ε] [DecidableEq α] :
    DecidableEq (Except ε α) := fun a b =>
  match a, b with
  | .error e₁, .error e₂ =>
    if h : e₁ = e₂ then .isTrue (by rw [h]) else .isFalse (by simp [h])
  | .error _, .ok _ => .isFalse (by simp)
  | .ok _, .error _ => .isFalse (by simp)
  | .ok v₁, .ok v₂ =>
    if h : v₁ = v₂ then .isTrue (by rw [h]) else .isFalse (by simp [h])

/-- Result of one call through `st.cache_data` around a function that may
raise: the returned value or the escaped exception, the cache slot after
the call, whether a fetch was attempted, and any `st.error` banner. -/
structure CachedStep (V : Type) where
  result : Except String V
  cache : Option (CacheEntry V)
  fetched : Bool
  errorBanner : Option String
deriving Repr, DecidableEq

/-- `st.cache_data(ttl)` around a fallible fetch: a valid entry short-cuts
the fetch entirely; on a cache miss the fetch runs — a normal return value
(including an error sentinel like `[]`) is cached with a fresh timestamp,
while an escaped exception caches nothing. -/
def cachedStep {V : Type} (ttl : Nat)
    (fetch : Nat → Except String (FetchResult V))
    (e : Option (CacheEntry V)) (now : Nat) : CachedStep V :=
  match e with
  | some en =>
    if now < en.created_at + ttl then ⟨.ok en.value, some en, false, none⟩
    else
      match fetch now with
      | .error m => ⟨.error m, e, true, none⟩
      | .ok r => ⟨.ok r.value, some ⟨r.value, now⟩, true, r.errorShown⟩
  | none =>
    match fetch now with
    | .error m => ⟨.error m, e, true, none⟩
    | .ok r => ⟨.ok r.value, some ⟨r.value, now⟩, true, r.errorShown⟩

/-- The cached quotes fetch as the script calls it: `get_crypto_data` under
`@st.cache_data(ttl=300)`; `outcomeAt t` is the upstream behaviour were the
request issued at time `t`. -/
def cached_get_crypto_data (outcomeAt : Nat → HttpOutcome (List Quote))
    (e : Option (CacheEntry (List Quote))) (now : Nat) :
    CachedStep (List Quote) :=
  cachedStep quotes_ttl (fun t => get_crypto_data (outcomeAt t)) e now

/-- The cached history fetch: `get_historical_data` under
`@st.cache_data(ttl=3600)`. -/
def cached_get_historical_data (outcomeAt : Nat → HttpOutcome HistDict)
    (e : Option (CacheEntry HistDict)) (now : Nat) : CachedStep HistDict :=
  cachedStep historical_ttl (fun t => get_historical_data (outcomeAt t)) e now

/-! ## View model: DataFrame formatting and percent colouring -/

/-- Insert a comma before every third digit, working over the reversed
digit list (`i` counts digits already emitted). -/
def commaRev : List Char → Nat → List Char
  | [], _ => []
  | c :: rest, i =>
    if i ≠ 0 && i % 3 == 0 then ',' :: c :: commaRev rest (i + 1)
    else c :: commaRev rest (i + 1)

/-- Thousands grouping of a natural number, as Python's `,` format spec:
`groupNat 1234567 = "1,234,567"`. -/
def groupNat (n : Nat) : String :=
  String.mk ((commaRev (toString n).toList.reverse 0).reverse)

/-- Left-pad a string with zeros to width `w`. -/
def padZeros (s : String) (w : Nat) : String :=
  String.mk (List.replicate (w - s.length) '0') ++ s

/-- Python's `f"${x:,.d f}"` currency format, idealised over `ℚ`: round to
`d` decimal places, group the integer part with commas, prefix `$`
(a leading `-` for negative amounts sits after the `$`, as in Python). -/
def formatUsd (decimals : Nat) (x : ℚ) : String :=
  let scaled : Int := (x * (10 : ℚ) ^ decimals + 1 / 2).floor
  let m := scaled.natAbs
  let ip := m / 10 ^ decimals
  let fp := m % 10 ^ decimals
  "$" ++ (if scaled < 0 then "-" else "") ++ groupNat ip ++
    (if decimals = 0 then "" else "." ++ padZeros (toString fp) decimals)

/-- `color_percent` (lines 122–128): `float(val)` succeeds (`some v`) or
raises (`none`, covered by the bare `except` returning `''`); on success
the colour is green iff `val >= 0`, else red. -/
def color_percent (val : Option ℚ) : String :=
  match val with
  | some v => "color: " ++ (if 0 ≤ v then "green" else "red")
  | none => ""

/-- One row of the styled quotes DataFrame (lines 107–135): id, name and
symbol copied through; price, market cap and volume replaced by formatted
currency strings; the three percentage columns kept as raw numbers with a
colour style attached by `color_percent`. -/
structure DisplayRow where
  id : String
  name : String
  symbol : String
  current_price_usd : String
  change_24h : ℚ
  change_7d : ℚ
  change_30d : ℚ
  market_cap_usd : String
  volume_usd : String
  color_24h : String
  color_7d : String
  color_30d : String
deriving Repr, DecidableEq

/-- The per-quote content of the styled DataFrame: column selection and
renaming, the three `apply` formatting lambdas (lines 117–119), and
`df.style.applymap(color_percent, subset=[the three percent columns])`
(line 134). -/
def buildRow (q : Quote) : DisplayRow :=
  { id := q.id
    name := q.name
    symbol := q.symbol
    current_price_usd := formatUsd 2 q.current_price
    change_24h := q.price_change_percentage_24h
    change_7d := q.price_change_percentage_7d_in_currency
    change_30d := q.price_change_percentage_30d_in_currency
    market_cap_usd := formatUsd 0 q.market_cap
    volume_usd := formatUsd 0 q.total_volume
    color_24h := color_percent (some q.price_change_percentage_24h)
    color_7d := color_percent (some q.price_change_percentage_7d_in_currency)
    color_30d := color_percent (some q.price_change_percentage_30d_in_currency) }

/-! ## The script body: guards, detail tabs, auto-refresh -/

/-- What one detail tab renders in its `col2` (lines 184–224). -/
inductive TabRender where
  /-- `next((c for c in crypto_data if c['id'] == crypto_id), None)` was
  `None`: the `if crypto:` guard fails and the tab stays empty. -/
  | skipped
  /-- The history guard passed: a price chart is drawn from these points. -/
  | chart (prices : List (Nat × ℚ))
  /-- The `else` branch: `st.error("Could not load historical data ...")`. -/
  | histError
deriving Repr, DecidableEq

/-- The guard on line 188: `if hist_data and 'prices' in hist_data:` —
dict truthiness, then key membership. -/
def histGuard (h : HistDict) : Bool :=
  dictTruthy h && h.hasPrices

/-- One iteration of the tab loop for `crypto_id` (lines 143–224): find the
asset in the fetched data; if present, fetch 30-day history (a transport
failure raises out of the whole script) and render the chart or the history
error banner per `histGuard`. -/
def renderTab (histOutcome : HttpOutcome HistDict) (data : List Quote)
    (cid : String) : Except String TabRender :=
  match data.find? (fun c => c.id == cid) with
  | none => .ok .skipped
  | some _ =>
    match get_historical_data histOutcome with
    | .error m => .error m
    | .ok r => if histGuard r.value then .ok (.chart r.value.prices)
               else .ok .histError

/-- The tab loop over the selected assets, in order; the first escaped
exception aborts the script run. -/
def runTabs (histOutcomeFor : String → HttpOutcome HistDict)
    (data : List Quote) : List String → Except String (List (String × TabRender))
  | [] => .ok []
  | cid :: rest =>
    match renderTab (histOutcomeFor cid) data cid with
    | .error m => .error m
    | .ok tr =>
      match runTabs histOutcomeFor data rest with
      | .error m => .error m
      | .ok l => .ok ((cid, tr) :: l)

/-- Inputs of one script run: sidebar state plus the upstream behaviour of
the quotes request and of each per-asset history request. -/
structure AppEnv where
  selected_cryptos : List String
  refresh_interval : Nat
  auto_refresh : Bool
  quotesOutcome : HttpOutcome (List Quote)
  histOutcomeFor : String → HttpOutcome HistDict

/-- Observable effects of one script run that completed without an escaped
exception. -/
structure ScriptRun where
  /-- `st.warning("Please select at least one cryptocurrency ...")` shown. -/
  emptySelectionWarning : Bool
  /-- `st.stop()` reached (run halted before any fetch). -/
  stoppedAtGuard : Bool
  /-- the quotes fetch was issued (`get_crypto_data` called). -/
  quotesFetched : Bool
  /-- banner from a failed quotes fetch, if any. -/
  quotesErrorBanner : Option String
  /-- the `if crypto_data:` block ran: table and detail sections rendered. -/
  tableDisplayed : Bool
  /-- what each detail tab rendered, in selection order. -/
  detailTabs : List (String × TabRender)
  /-- the run reached the end of the render phase (Fetching → Displayed). -/
  displayed : Bool
  /-- the auto-refresh block ran: `time.sleep(interval); rerun()`. -/
  sleptAndRerun : Bool
deriving Repr, DecidableEq

/-- One top-level run of the script body (lines 98–230), with the cache
assumed cold for this run (fetch behaviour given by the outcomes in `env`):
empty-selection guard, quotes fetch, `if crypto_data:` table + tabs, then
the auto-refresh sleep-and-rerun block. An uncaught `requests` exception
aborts the run (`.error`). -/
def run_script (env : AppEnv) : Except String ScriptRun :=
  if env.selected_cryptos.isEmpty then
    .ok ⟨true, true, false, none, false, [], false, false⟩
  else
    match get_crypto_data env.quotesOutcome with
    | .error m => .error m
    | .ok r =>
      if r.value.isEmpty then
        .ok ⟨false, false, true, r.errorShown, false, [], true, env.auto_refresh⟩
      else
        match runTabs env.histOutcomeFor r.value env.selected_cryptos with
        | .error m => .error m
        | .ok tabs =>
          .ok ⟨false, false, true, r.errorShown, true, tabs, true,
               env.auto_refresh⟩

/-! ## Sample data for concrete scenarios -/

/-- A concrete Quote (the §8 scenario: bitcoin at 50000.00, +2.5% 24h). -/
def qBTC : Quote :=
  ⟨"bitcoin", "Bitcoin", "btc", 50000, 5 / 2, 1, 2, 1000000000, 500000, "img"⟩

/-- An upstream that answers every quotes request with HTTP 500. -/
def outcome500 : Nat → HttpOutcome (List Quote) := fun _ => .response 500 []

/-- Sidebar state with no cryptocurrency selected. -/
def emptyEnv : AppEnv :=
  ⟨[], 60, true, .response 200 [], fun _ => .response 200 histFailureSentinel⟩

/-- A run where `requests.get` raises for the quotes request. -/
def transportEnv : AppEnv :=
  ⟨["bitcoin"], 60, true, .transportFailure "ConnectionError",
   fun _ => .response 200 ⟨true, [(0, 100)], 0⟩⟩

/-- A run where every request succeeds. -/
def okEnv : AppEnv :=
  ⟨["bitcoin"], 60, true, .response 200 [qBTC],
   fun _ => .response 200 ⟨true, [(0, 100)], 0⟩⟩

/-- A run where the quotes request answers HTTP 500. -/
def fail500Env : AppEnv :=
  ⟨["bitcoin"], 60, true, .response 500 [],
   fun _ => .response 200 ⟨true, [(0, 100)], 0⟩⟩

/-! ## Helper lemmas -/

/-- A valid cache entry short-cuts the fetch. -/
theorem cachedStep_valid {V : Type} (ttl : Nat)
    (f : Nat → Except String (FetchResult V)) (v : V) (t0 now : Nat)
    (h : now < t0 + ttl) :
    cachedStep ttl f (some ⟨v, t0⟩) now = ⟨.ok v, some ⟨v, t0⟩, false, none⟩ := by
  simp [cachedStep, h]

/-- On an expired entry the fetch always runs. -/
theorem cachedStep_expired_fetched {V : Type} (ttl : Nat)
    (f : Nat → Except String (FetchResult V)) (v : V) (t0 now : Nat)
    (h : t0 + ttl ≤ now) :
    (cachedStep ttl f (some ⟨v, t0⟩) now).fetched = true := by
  simp only [cachedStep, if_neg (Nat.not_lt.mpr h)]
  cases f now <;> rfl

/-- A fetch through `cachedStep` only happens when any prior entry for the
key has already expired. -/
theorem cachedStep_fetched_implies_expired {V : Type} (ttl : Nat)
    (f : Nat → Except String (FetchResult V)) (e : Option (CacheEntry V))
    (now : Nat) (hf : (cachedStep ttl f e now).fetched = true) :
    ∀ en, e = some en → en.created_at + ttl ≤ now := by
  intro en he
  subst he
  by_contra hlt
  rw [cachedStep_valid ttl f en.value en.created_at now (Nat.lt_of_not_le hlt)] at hf
  exact Bool.false_ne_true hf

/-- The colour emitted by `color_percent` on a parseable value, versus the
sign of the value. -/
theorem color_percent_sign (v : ℚ) :
    (color_percent (some v) = "color: green" ↔ 0 ≤ v) ∧
    (color_percent (some v) = "color: red" ↔ v < 0) := by
  rcases le_or_lt 0 v with h | h
  · have e : color_percent (some v) = "color: green" := by
      simp [color_percent, h]
    rw [e]
    exact ⟨⟨fun _ => h, fun _ => rfl⟩,
           ⟨fun hc => absurd hc (by decide), fun hc => absurd h (not_le.mpr hc)⟩⟩
  · have e : color_percent (some v) = "color: red" := by
      simp [color_percent, not_le.mpr h]
    rw [e]
    exact ⟨⟨fun hc => absurd hc (by decide), fun h0 => absurd h0 (not_le.mpr h)⟩,
           ⟨fun _ => h, fun _ => rfl⟩⟩

/-- `renderTab` returns normally whenever the history request yields an
HTTP response (of any status). -/
theorem renderTab_ok (o : HttpOutcome HistDict) (data : List Quote)
    (cid : String) (ho : o.isResponse = true) :
    ∃ tr, renderTab o data cid = .ok tr := by
  cases o with
  | transportFailure m => exact absurd ho (by simp [HttpOutcome.isResponse])
  | response s b =>
    have hg : ∃ r, get_historical_data (.response s b) = .ok r := by
      by_cases hs : s = 200
      · exact ⟨⟨b, none⟩, by simp [get_historical_data, hs]⟩
      · exact ⟨⟨histFailureSentinel,
                some ("Error fetching historical data: " ++ toString s)⟩,
              by simp [get_historical_data, hs]⟩
    obtain ⟨r, hr⟩ := hg
    unfold renderTab
    cases data.find? (fun c => c.id == cid) with
    | none => exact ⟨.skipped, rfl⟩
    | some c =>
      rw [hr]
      by_cases hgd : histGuard r.value = true
      · exact ⟨.chart r.value.prices, by simp [hgd]⟩
      · exact ⟨.histError, by simp [hgd]⟩

/-- The tab loop returns normally when every history request yields an HTTP
response. -/
theorem runTabs_ok (hf : String → HttpOutcome HistDict) (data : List Quote)
    (l : List String) (hh : ∀ cid ∈ l, (hf cid).isResponse = true) :
    ∃ tabs, runTabs hf data l = .ok tabs := by
  induction l with
  | nil => exact ⟨[], rfl⟩
  | cons c rest ih =>
    obtain ⟨tr, htr⟩ := renderTab_ok (hf c) data c (hh c (by simp))
    obtain ⟨tabs, htabs⟩ := ih (fun cid hm => hh cid (by simp [hm]))
    exact ⟨(c, tr) :: tabs, by simp [runTabs, htr, htabs]⟩

/-- Whether a script run completed without an escaped exception. -/
def scriptCompleted : Except String ScriptRun → Bool
  | .ok _ => true
  | .error _ => false

/-- Whether a script run reached the end of the render phase (Displayed). -/
def scriptDisplayed : Except String ScriptRun → Bool
  | .ok r => r.displayed
  | .error _ => false

/-- Whether a script run reached the sleep-and-rerun auto-refresh block. -/
def scriptRerun : Except String ScriptRun → Bool
  | .ok r => r.sleptAndRerun
  | .error _ => false

/-! ## Claims -/

/-- C1: for every `ttl > 0`, an entry written at `t0` is returned without
invoking the fetch function for any read at `t < t0 + ttl`, and any read at
`t ≥ t0 + ttl` runs a fresh fetch whose result is stored at `t`; the quotes
cache uses ttl = 300 s and the historical-series cache ttl = 3600 s. -/
theorem ttl_cache_expiry (V : Type) (ttl t0 t : Nat) (v : V) (f : Nat → V)
    (oq : Nat → HttpOutcome (List Quote)) (vq : List Quote)
    (oh : Nat → HttpOutcome HistDict) (vh : HistDict)
    (httl : 0 < ttl) :
    (t < t0 + ttl →
      cachedCall ttl f (some ⟨v, t0⟩) t = ⟨v, some ⟨v, t0⟩, false⟩) ∧
    (t0 + ttl ≤ t →
      cachedCall ttl f (some ⟨v, t0⟩) t = ⟨f t, some ⟨f t, t⟩, true⟩) ∧
    (t < t0 + quotes_ttl →
      (cached_get_crypto_data oq (some ⟨vq, t0⟩) t).fetched = false) ∧
    (t0 + quotes_ttl ≤ t →
      (cached_get_crypto_data oq (some ⟨vq, t0⟩) t).fetched = true) ∧
    (t < t0 + historical_ttl →
      (cached_get_historical_data oh (some ⟨vh, t0⟩) t).fetched = false) ∧
    (t0 + historical_ttl ≤ t →
      (cached_get_historical_data oh (some ⟨vh, t0⟩) t).fetched = true) ∧
    quotes_ttl = 300 ∧ historical_ttl = 3600 := by
  refine ⟨fun h => ?_, fun h => ?_, fun h => ?_, fun h => ?_, fun h => ?_,
          fun h => ?_, rfl, rfl⟩
  · simp [cachedCall, h]
  · simp [cachedCall, Nat.not_lt.mpr h]
  · exact congrArg CachedStep.fetched
      (cachedStep_valid quotes_ttl (fun x => get_crypto_data (oq x)) vq t0 t h)
  · exact cachedStep_expired_fetched quotes_ttl
      (fun x => get_crypto_data (oq x)) vq t0 t h
  · exact congrArg CachedStep.fetched
      (cachedStep_valid historical_ttl (fun x => get_historical_data (oh x)) vh t0 t h)
  · exact cachedStep_expired_fetched historical_ttl
      (fun x => get_historical_data (oh x)) vh t0 t h

/-- Witness for C1: with ttl = 300 and an entry written at 0, a read at 300
refetches and restores; a still-valid history entry at 100 is served
without a fetch. -/
theorem ttl_cache_expiry_witness :
    cachedCall 300 (fun _ => (7 : Nat)) (some ⟨5, 0⟩) 300
      = ⟨7, some ⟨7, 300⟩, true⟩ ∧
    (cached_get_crypto_data outcome500 (some ⟨[], 0⟩) 300).fetched = true ∧
    (cached_get_historical_data (fun _ => .response 200 histFailureSentinel)
        (some ⟨histFailureSentinel, 0⟩) 100).fetched = false := by
  have h := ttl_cache_expiry Nat 300 0 300 5 (fun _ => 7) outcome500 []
      (fun _ => .response 200 histFailureSentinel) histFailureSentinel
      (by decide)
  have h100 := ttl_cache_expiry Nat 300 0 100 5 (fun _ => 7) outcome500 []
      (fun _ => .response 200 histFailureSentinel) histFailureSentinel
      (by decide)
  exact ⟨h.2.1 (by decide), h.2.2.2.1 (by decide), h100.2.2.2.2.1 (by decide)⟩

/-- C2 counterexample: with a still-valid prior entry (`[qBTC]` written at 0,
read at 100 < 300) and an upstream answering HTTP 500, the cached call
returns the cached Quote list, not an error — the fetch never runs; and
once the entry expires (read at 300), the failing fetch's sentinel `[]` IS
cached with a fresh timestamp, evicting the prior list, so a later read at
400 serves `[]` from cache. -/
theorem failed_refresh_counterexample :
    (cached_get_crypto_data outcome500 (some ⟨[qBTC], 0⟩) 100).result
        = .ok [qBTC] ∧
    (cached_get_crypto_data outcome500 (some ⟨[qBTC], 0⟩) 100).fetched
        = false ∧
    (cached_get_crypto_data outcome500 (some ⟨[qBTC], 0⟩) 300).result
        = .ok [] ∧
    (cached_get_crypto_data outcome500 (some ⟨[qBTC], 0⟩) 300).cache
        = some ⟨[], 300⟩ ∧
    (cached_get_crypto_data outcome500 (some ⟨[], 300⟩) 400).result
        = .ok [] ∧
    (cached_get_crypto_data outcome500 (some ⟨[], 300⟩) 400).fetched
        = false :=
  ⟨rfl, rfl, rfl, rfl, rfl, rfl⟩

/-- C2 amended: while a prior quotes entry is still valid the fetch function
is never invoked, so a failing upstream cannot be observed and the cache is
trivially unchanged — the cached call returns the prior value, not an
error; once the entry has expired, a fetch answered with a non-200 status
returns the sentinel `[]`, which is cached with timestamp `t`, replacing
the prior entry; only a fetch that raises (transport failure) leaves the
cache unchanged. -/
theorem failed_refresh_behaviour (oq : Nat → HttpOutcome (List Quote))
    (v : List Quote) (t0 t : Nat) :
    (t < t0 + quotes_ttl →
      cached_get_crypto_data oq (some ⟨v, t0⟩) t
        = ⟨.ok v, some ⟨v, t0⟩, false, none⟩) ∧
    (∀ s b, t0 + quotes_ttl ≤ t → oq t = .response s b → s ≠ 200 →
      cached_get_crypto_data oq (some ⟨v, t0⟩) t
        = ⟨.ok [], some ⟨[], t⟩, true,
           some ("Error fetching data: " ++ toString s)⟩) ∧
    (∀ m, t0 + quotes_ttl ≤ t → oq t = .transportFailure m →
      cached_get_crypto_data oq (some ⟨v, t0⟩) t
        = ⟨.error m, some ⟨v, t0⟩, true, none⟩) := by
  refine ⟨fun h => ?_, fun s b h ho hs => ?_, fun m h ho => ?_⟩
  · exact cachedStep_valid quotes_ttl (fun x => get_crypto_data (oq x)) v t0 t h
  · show cachedStep quotes_ttl (fun x => get_crypto_data (oq x))
      (some ⟨v, t0⟩) t = _
    simp [cachedStep, Nat.not_lt.mpr h, ho, get_crypto_data, hs]
  · show cachedStep quotes_ttl (fun x => get_crypto_data (oq x))
      (some ⟨v, t0⟩) t = _
    simp [cachedStep, Nat.not_lt.mpr h, ho, get_crypto_data]

/-- Witness for C2 (amended): concrete reads at 100 (valid, served from
cache) and at 300 (expired, HTTP 500 → sentinel `[]` cached). -/
theorem failed_refresh_behaviour_witness :
    cached_get_crypto_data outcome500 (some ⟨[qBTC], 0⟩) 100
      = ⟨.ok [qBTC], some ⟨[qBTC], 0⟩, false, none⟩ ∧
    cached_get_crypto_data outcome500 (some ⟨[qBTC], 0⟩) 300
      = ⟨.ok [], some ⟨[], 300⟩, true,
         some ("Error fetching data: " ++ toString 500)⟩ :=
  ⟨(failed_refresh_behaviour outcome500 [qBTC] 0 100).1 (by decide),
   (failed_refresh_behaviour outcome500 [qBTC] 0 300).2.1 500 []
     (by decide) rfl (by decide)⟩

/-- C3 counterexample: a transport failure in `requests.get` is not caught
by either fetch function — the exception escapes to the caller instead of
an error value being returned. -/
theorem transport_failure_raises :
    get_crypto_data (.transportFailure "ConnectionError")
      = .error "ConnectionError" ∧
    get_historical_data (.transportFailure "ConnectionError")
      = .error "ConnectionError" :=
  ⟨rfl, rfl⟩

/-- C3 amended: on a non-success HTTP status each fetch function returns a
sentinel empty value — `[]` for quotes, `{'prices': []}` for history —
after displaying an `st.error` banner naming the status (no structured
FetchError value is returned); a transport failure raises the underlying
`requests` exception uncaught to the caller. -/
theorem fetch_error_behaviour (s : Nat) (bq : List Quote) (bh : HistDict)
    (m : String) (hs : s ≠ 200) :
    get_crypto_data (.response s bq)
      = .ok ⟨[], some ("Error fetching data: " ++ toString s)⟩ ∧
    get_historical_data (.response s bh)
      = .ok ⟨histFailureSentinel,
             some ("Error fetching historical data: " ++ toString s)⟩ ∧
    get_crypto_data (.transportFailure m) = .error m ∧
    get_historical_data (.transportFailure m) = .error m := by
  refine ⟨?_, ?_, rfl, rfl⟩
  · simp [get_crypto_data, hs]
  · simp [get_historical_data, hs]

/-- Witness for C3 (amended): HTTP 500 and a timeout, on both endpoints. -/
theorem fetch_error_behaviour_witness :
    get_crypto_data (.response 500 [])
      = .ok ⟨[], some ("Error fetching data: " ++ toString 500)⟩ ∧
    get_historical_data (.transportFailure "Timeout") = .error "Timeout" :=
  ⟨(fetch_error_behaviour 500 [] histFailureSentinel "Timeout" (by decide)).1,
   (fetch_error_behaviour 500 [] histFailureSentinel "Timeout"
     (by decide)).2.2.2⟩

/-- C4: the history request carries `interval = "daily"` iff
`lookbackDays > 1`, else `"hourly"`; in particular 1 day ⇒ hourly and
30 days ⇒ daily. -/
theorem history_granularity (d : Int) :
    (1 < d → (historyRequest d).interval = "daily") ∧
    (d ≤ 1 → (historyRequest d).interval = "hourly") ∧
    (historyRequest 1).interval = "hourly" ∧
    (historyRequest 30).interval = "daily" := by
  refine ⟨fun h => ?_, fun h => ?_, rfl, rfl⟩
  · simp [historyRequest, h]
  · simp [historyRequest, not_lt.mpr h]

/-- Witness for C4: 5 lookback days request daily points, 0 days hourly. -/
theorem history_granularity_witness :
    (historyRequest 5).interval = "daily" ∧
    (historyRequest 0).interval = "hourly" :=
  ⟨(history_granularity 5).1 (by decide),
   (history_granularity 0).2.1 (by decide)⟩

/-- C5: with an empty selection set the script warns, stops before any
fetch, and reaches neither the display nor the refresh machinery: the
empty-selection precondition is surfaced as a blocking warning, not as a
fetch failure (no fetch-error banner). -/
theorem empty_selection_refuses_fetch (env : AppEnv)
    (h : env.selected_cryptos = []) :
    run_script env = .ok ⟨true, true, false, none, false, [], false, false⟩ := by
  simp [run_script, h]

/-- Witness for C5: the concrete empty-selection sidebar state. -/
theorem empty_selection_refuses_fetch_witness :
    run_script emptyEnv
      = .ok ⟨true, true, false, none, false, [], false, false⟩ :=
  empty_selection_refuses_fetch emptyEnv rfl

/-- C6 counterexample: with auto-refresh enabled, a transport failure on
the quotes fetch escapes uncaught and aborts the script run before the
display phase and before the sleep-and-rerun block — the run does not
transition to Displayed and the refresh cycle does not continue. -/
theorem fetch_exception_aborts_cycle :
    run_script transportEnv = .error "ConnectionError" ∧
    scriptDisplayed (run_script transportEnv) = false ∧
    scriptRerun (run_script transportEnv) = false ∧
    transportEnv.auto_refresh = true :=
  ⟨rfl, rfl, rfl, rfl⟩

/-- C6 amended: whenever every fetch of the cycle completes with an HTTP
response — success or any error status — the script run completes, reaches
Displayed (possibly degraded), and, with auto-refresh enabled, continues
the cycle with sleep-and-rerun; only an uncaught transport-level exception
aborts the run before Displayed. -/
theorem fetch_completion_always_displays (env : AppEnv)
    (hsel : env.selected_cryptos ≠ [])
    (hq : env.quotesOutcome.isResponse = true)
    (hh : ∀ cid ∈ env.selected_cryptos,
            (env.histOutcomeFor cid).isResponse = true) :
    scriptCompleted (run_script env) = true ∧
    scriptDisplayed (run_script env) = true ∧
    scriptRerun (run_script env) = env.auto_refresh := by
  have hne : env.selected_cryptos.isEmpty = false := by
    cases hsl : env.selected_cryptos with
    | nil => exact absurd hsl hsel
    | cons a l => rfl
  cases ho : env.quotesOutcome with
  | transportFailure m =>
    rw [ho] at hq
    exact absurd hq (by simp [HttpOutcome.isResponse])
  | response s b =>
    have hgc : ∃ r, get_crypto_data (.response s b) = .ok r := by
      by_cases hs : s = 200
      · exact ⟨⟨b, none⟩, by simp [get_crypto_data, hs]⟩
      · exact ⟨⟨[], some ("Error fetching data: " ++ toString s)⟩,
               by simp [get_crypto_data, hs]⟩
    obtain ⟨r, hr⟩ := hgc
    by_cases hv : r.value.isEmpty = true
    · have hrun : run_script env
          = .ok ⟨false, false, true, r.errorShown, false, [], true,
                 env.auto_refresh⟩ := by
        simp [run_script, hne, ho, hr, hv]
      simp [hrun, scriptCompleted, scriptDisplayed, scriptRerun]
    · obtain ⟨tabs, htabs⟩ :=
        runTabs_ok env.histOutcomeFor r.value env.selected_cryptos hh
      have hrun : run_script env
          = .ok ⟨false, false, true, r.errorShown, true, tabs, true,
                 env.auto_refresh⟩ := by
        simp [run_script, hne, ho, hr, hv, htabs]
      simp [hrun, scriptCompleted, scriptDisplayed, scriptRerun]

/-- Witness for C6 (amended): a run where every request answers 200
displays and schedules the rerun. -/
theorem fetch_completion_always_displays_witness :
    scriptCompleted (run_script okEnv) = true ∧
    scriptDisplayed (run_script okEnv) = true ∧
    scriptRerun (run_script okEnv) = okEnv.auto_refresh :=
  fetch_completion_always_displays okEnv (by decide) rfl (by decide)

/-- C7: `buildRow` colours each of the three percentage-change fields green
exactly when the value is ≥ 0 and red exactly when it is negative, and
replaces price, market cap and volume by the `$`-prefixed comma-grouped
currency strings (there is no I/O and the input `Quote` is read-only:
`buildRow` is a pure function of its argument). -/
theorem buildRow_colors_and_formatting (q : Quote) :
    ((buildRow q).color_24h = "color: green"
        ↔ 0 ≤ q.price_change_percentage_24h) ∧
    ((buildRow q).color_24h = "color: red"
        ↔ q.price_change_percentage_24h < 0) ∧
    ((buildRow q).color_7d = "color: green"
        ↔ 0 ≤ q.price_change_percentage_7d_in_currency) ∧
    ((buildRow q).color_7d = "color: red"
        ↔ q.price_change_percentage_7d_in_currency < 0) ∧
    ((buildRow q).color_30d = "color: green"
        ↔ 0 ≤ q.price_change_percentage_30d_in_currency) ∧
    ((buildRow q).color_30d = "color: red"
        ↔ q.price_change_percentage_30d_in_currency < 0) ∧
    (buildRow q).current_price_usd = formatUsd 2 q.current_price ∧
    (buildRow q).market_cap_usd = formatUsd 0 q.market_cap ∧
    (buildRow q).volume_usd = formatUsd 0 q.total_volume ∧
    (buildRow q).id = q.id ∧ (buildRow q).name = q.name ∧
    (buildRow q).symbol = q.symbol :=
  ⟨(color_percent_sign _).1, (color_percent_sign _).2,
   (color_percent_sign _).1, (color_percent_sign _).2,
   (color_percent_sign _).1, (color_percent_sign _).2,
   rfl, rfl, rfl, rfl, rfl, rfl⟩

/-- C8: applying `buildRow` twice to the same `Quote` yields identical
`DisplayRow` output — the transformation is deterministic, with no state
or I/O to make two applications differ. -/
theorem buildRow_repeat_identical (q q' : Quote) (h : q = q') :
    buildRow q = buildRow q' :=
  congrArg buildRow h

/-- Witness for C8: two applications to the §8 sample quote agree. -/
theorem buildRow_repeat_identical_witness :
    qBTC = qBTC ∧ buildRow qBTC = buildRow qBTC :=
  ⟨rfl, buildRow_repeat_identical qBTC qBTC rfl⟩

/-- C9: a failed history fetch returns the sentinel `{'prices': []}`, which
passes the renderer's guard (`hist_data` truthy and `'prices'` present), so
for an asset present in the quotes data the tab renders an empty price
chart — the "Could not load historical data" branch is unreachable on a
fetch failure. -/
theorem hist_failure_renders_empty_chart (s : Nat) (b : HistDict)
    (data : List Quote) (cid : String) (hs : s ≠ 200)
    (hfound : (data.find? (fun c => c.id == cid)).isSome = true) :
    get_historical_data (.response s b)
      = .ok ⟨histFailureSentinel,
             some ("Error fetching historical data: " ++ toString s)⟩ ∧
    histGuard histFailureSentinel = true ∧
    renderTab (.response s b) data cid = .ok (.chart []) ∧
    renderTab (.response s b) data cid ≠ .ok .histError := by
  have h1 : get_historical_data (.response s b)
      = .ok ⟨histFailureSentinel,
             some ("Error fetching historical data: " ++ toString s)⟩ := by
    simp [get_historical_data, hs]
  obtain ⟨c, hc⟩ := Option.isSome_iff_exists.mp hfound
  have h3 : renderTab (.response s b) data cid = .ok (.chart []) := by
    unfold renderTab
    rw [hc, h1]
    rfl
  refine ⟨h1, rfl, h3, fun hcontra => ?_⟩
  rw [h3] at hcontra
  exact absurd hcontra (by decide)

/-- Witness for C9: HTTP 500 on the history fetch for bitcoin, present in
the quotes data — an empty chart is rendered. -/
theorem hist_failure_renders_empty_chart_witness :
    renderTab (.response 500 histFailureSentinel) [qBTC] "bitcoin"
      = .ok (.chart []) :=
  (hist_failure_renders_empty_chart 500 histFailureSentinel [qBTC] "bitcoin"
    (by decide) (by decide)).2.2.1

/-- C10: when the quotes fetch is answered with a non-200 status the script
gets the sentinel `[]`, the `if crypto_data:` guard fails, and neither the
quotes table nor any per-asset detail section is rendered for the cycle;
and a fetch through the cache only ever happens when any prior entry has
already expired, so no still-valid cached data exists that the blank
display could have shown. -/
theorem failed_quotes_fetch_displays_nothing (env : AppEnv) (s : Nat)
    (b : List Quote) (e : Option (CacheEntry (List Quote)))
    (oq : Nat → HttpOutcome (List Quote)) (now : Nat)
    (hsel : env.selected_cryptos ≠ [])
    (hq : env.quotesOutcome = .response s b) (hs : s ≠ 200) :
    run_script env
      = .ok ⟨false, false, true,
             some ("Error fetching data: " ++ toString s), false, [], true,
             env.auto_refresh⟩ ∧
    ((cached_get_crypto_data oq e now).fetched = true →
      ∀ en, e = some en → en.created_at + quotes_ttl ≤ now) := by
  constructor
  · have hne : env.selected_cryptos.isEmpty = false := by
      cases hsl : env.selected_cryptos with
      | nil => exact absurd hsl hsel
      | cons a l => rfl
    simp [run_script, hne, hq, get_crypto_data, hs]
  · exact fun hf =>
      cachedStep_fetched_implies_expired quotes_ttl
        (fun x => get_crypto_data (oq x)) e now hf

/-- Witness for C10: the concrete HTTP-500 run renders no table and no
detail tabs yet still schedules the rerun. -/
theorem failed_quotes_fetch_displays_nothing_witness :
    run_script fail500Env
      = .ok ⟨false, false, true,
             some ("Error fetching data: " ++ toString 500), false, [], true,
             true⟩ :=
  (failed_quotes_fetch_displays_nothing fail500Env 500 [] none outcome500 0
    (by decide) rfl (by decide)).1
